import Mathlib

/-!
Shallow embedding of the jira-github-mcp duplicate-detection pipeline:
the fuzzy similarity scorer and cache of JiraClient (src/jira_client.py),
the trigger classifier and field extraction of GitHubClient
(src/github_client.py), and the webhook orchestration of WebhookServer
(src/webhook_server.py).  Machine floats are modelled as rationals; the
fuzzywuzzy token-sort ratio is modelled with the Levenshtein-based
percentage ratio 2*LCS/(len1+len2) that the library computes.
-/

/-- Python whitespace, the regex character class backslash-s for ASCII. -/
def isPySpace (c : Char) : Bool :=
  c = ' ' || c = '\t' || c = '\n' || c = '\r' || c = '\x0b' || c = '\x0c'

/-- Python str.strip: drop leading and trailing whitespace. -/
def pyStrip (s : String) : String :=
  String.mk (((s.data.dropWhile isPySpace).reverse.dropWhile isPySpace).reverse)

/-- Python str.lower, characterwise on the ASCII range. -/
def pyLower (s : String) : String := String.mk (s.data.map Char.toLower)

/-- Split a character list at every occurrence of the separator character,
keeping empty pieces (the accumulator holds the current piece reversed). -/
def splitChar (sep : Char) : List Char → List Char → List (List Char)
  | [], acc => [acc.reverse]
  | c :: rest, acc =>
    if c = sep then acc.reverse :: splitChar sep rest []
    else splitChar sep rest (c :: acc)

/-- Python str.split with a one-character separator (keeps empty pieces). -/
def splitOnChar (sep : Char) (s : String) : List String :=
  (splitChar sep s.data []).map String.mk

/-- Stable insertion into a sorted list: the new element goes in front of the
first element it relates to, so existing order is kept on ties. -/
def insertSorted {α : Type} (le : α → α → Bool) (a : α) : List α → List α
  | [] => [a]
  | b :: bs => if le a b then a :: b :: bs else b :: insertSorted le a bs

/-- Stable insertion sort.  All stable sorts for the same total preorder agree
on their output, so this models both the sorted builtin and list.sort of
Python. -/
def stableSort {α : Type} (le : α → α → Bool) : List α → List α
  | [] => []
  | a :: as => insertSorted le a (stableSort le as)

/-- fuzzywuzzy utils.full-process with force-ascii: drop non-ASCII characters,
replace every character that is not alphanumeric and not an underscore with a
space, and lowercase. -/
def fullProcessChars (s : String) : List Char :=
  (s.data.filter (fun c => c.toNat < 128)).map
    (fun c => if c.isAlphanum || c = '_' then c.toLower else ' ')

/-- Lexicographic comparison of character lists by code point, the string
order of the sorted builtin. -/
def charListLt : List Char → List Char → Bool
  | [], [] => false
  | [], _ :: _ => true
  | _ :: _, [] => false
  | a :: as, b :: bs => if a < b then true else if b < a then false else charListLt as bs

/-- Non-strict string comparison for sorting tokens. -/
def strLe (a b : String) : Bool := !(charListLt b.data a.data)

/-- fuzzywuzzy process-and-sort: full-process the string, split it into
whitespace-separated tokens, sort them, and rejoin with single spaces. -/
def processAndSort (s : String) : String :=
  let tokens := (splitOnChar ' ' (String.mk (fullProcessChars s))).filter (fun t => ¬ t = "")
  String.intercalate " " (stableSort strLe tokens)

/-- Longest-common-subsequence recursion with explicit fuel (one unit per
dropped character, so combined length is always enough fuel). -/
def lcsGo : Nat → List Char → List Char → Nat
  | 0, _, _ => 0
  | _ + 1, [], _ => 0
  | _ + 1, _ :: _, [] => 0
  | fuel + 1, a :: as, b :: bs =>
    if a = b then lcsGo fuel as bs + 1
    else max (lcsGo fuel (a :: as) bs) (lcsGo fuel as (b :: bs))

/-- Length of the longest common subsequence of two character lists.  The
Levenshtein similarity used by the fuzz module equals 2*LCS/(len1+len2). -/
def lcsLen (as bs : List Char) : Nat := lcsGo (as.length + bs.length) as bs

/-- fuzz.ratio as an integer percentage: the equal-string and empty-string
shortcuts of the library, otherwise the rounded similarity
100 * 2 * LCS / (len1 + len2). -/
def fuzzScore100 (s1 s2 : String) : Nat :=
  if s1 = s2 then 100
  else if s1.length = 0 || s2.length = 0 then 0
  else
    (2 * (200 * lcsLen s1.data s2.data) + (s1.length + s2.length)) /
      (2 * (s1.length + s2.length))

/-- fuzz.token-sort-ratio as an integer percentage in 0..100. -/
def tokenSortScore100 (s1 s2 : String) : Nat :=
  fuzzScore100 (processAndSort s1) (processAndSort s2)

/-- JiraIssue restricted to the fields the similarity scorer and the
orchestrator read (types.py JiraIssue). -/
structure JiraIssue where
  id : String
  key : String
  summary : String
  description : Option String
  issue_type : Option String
  labels : List String
deriving DecidableEq

/-- IssueMatchResult dataclass (types.py). -/
structure IssueMatchResult where
  score : ℚ
  issue : JiraIssue
  matched_fields : List String
deriving DecidableEq

/-- summary-score of find_similar_issues: token-sort ratio of the lowercased
search text against the lowercased summary, divided by 100. -/
def summaryScore (search_text : String) (issue : JiraIssue) : ℚ :=
  (tokenSortScore100 (pyLower search_text) (pyLower issue.summary) : ℚ) / 100

/-- description-score of find_similar_issues: 0 unless the issue has a truthy
(present and nonempty) description. -/
def descriptionScore (search_text : String) (issue : JiraIssue) : ℚ :=
  match issue.description with
  | none => 0
  | some d =>
    if d = "" then 0
    else (tokenSortScore100 (pyLower search_text) (pyLower d) : ℚ) / 100

/-- labels-score of find_similar_issues: 0 unless the issue has labels;
otherwise the ratio against the space-joined label list. -/
def labelsScore (search_text : String) (issue : JiraIssue) : ℚ :=
  if issue.labels = [] then 0
  else
    (tokenSortScore100 (pyLower search_text)
      (pyLower (String.intercalate " " issue.labels)) : ℚ) / 100

/-- Weighted combined score of find_similar_issues, capped at 1. -/
def combinedScore (search_text : String) (issue : JiraIssue) : ℚ :=
  min (summaryScore search_text issue * (7 / 10) +
       descriptionScore search_text issue * (3 / 10) +
       labelsScore search_text issue * (2 / 10)) 1

/-- The matched-fields list built by find_similar_issues for one issue that
passed the combined threshold: field names whose individual score reaches the
same threshold, in the fixed order summary, description, labels. -/
def matchedFieldsOf (search_text : String) (threshold : ℚ) (issue : JiraIssue) :
    List String :=
  (if summaryScore search_text issue ≥ threshold then ["summary"] else []) ++
  (if descriptionScore search_text issue ≥ threshold then ["description"] else []) ++
  (if labelsScore search_text issue ≥ threshold then ["labels"] else [])

/-- The loop body of JiraClient.find_similar_issues for one cached issue:
a result exactly when the combined score reaches the threshold. -/
def scoreIssue (search_text : String) (threshold : ℚ) (issue : JiraIssue) :
    Option IssueMatchResult :=
  if combinedScore search_text issue ≥ threshold then
    some ⟨combinedScore search_text issue, issue,
          matchedFieldsOf search_text threshold issue⟩
  else none

/-- The comparison of results.sort(reverse=True): descending by score, and
stable because Python list.sort is stable. -/
def byScoreDesc (a b : IssueMatchResult) : Bool := decide (b.score ≤ a.score)

/-- JiraClient.find_similar_issues on a cached issue list. -/
def find_similar_issues (issues : List JiraIssue) (search_text : String)
    (threshold : ℚ) : List IssueMatchResult :=
  if issues = [] then []
  else stableSort byScoreDesc (issues.filterMap (scoreIssue search_text threshold))

/-- The mutable fields of JiraClient that form the issue cache: the cached
issue list and the last sync instant (seconds). -/
structure ClientState where
  issues : List JiraIssue
  last_sync : Option Int
deriving DecidableEq

/-- JiraClient.needs_sync at time now: never synced, or synced more than five
minutes (300 seconds) ago. -/
def needs_sync (st : ClientState) (now : Int) : Bool :=
  match st.last_sync with
  | none => true
  | some t => decide (t < now - 300)

/-- JiraClient.sync_issues with the outcome of the upstream search-and-transform
injected: the cache fields are assigned only after the fetch succeeds (the
assignments follow the fetch in the try block), so a failing fetch propagates
with the state untouched. -/
def sync_issues (fetched : Except String (List JiraIssue)) (now : Int)
    (st : ClientState) : Except String Unit × ClientState :=
  match fetched with
  | .ok l => (.ok (), { issues := l, last_sync := some now })
  | .error e => (.error e, st)

/-- JiraClient.create_issue with the outcome of the upstream create-and-fetch
injected: on success the transformed created issue is inserted at index 0 of
the cached list and the last-sync instant is not touched. -/
def create_issue (created : Except String JiraIssue) (st : ClientState) :
    Except String JiraIssue × ClientState :=
  match created with
  | .ok it => (.ok it, { st with issues := it :: st.issues })
  | .error e => (.error e, st)

/-- find_similar_issues as a method on the client state: it reads the cached
issues and changes nothing (in particular it never syncs). -/
def find_similar_issuesM (st : ClientState) (search_text : String)
    (threshold : ℚ) : List IssueMatchResult × ClientState :=
  (find_similar_issues st.issues search_text threshold, st)

/-- Match of one trigger pattern word1-whitespace+-word2 at the head of cs
(both words given lowercase, cs already lowercased).  The greedy whitespace
run cannot backtrack usefully because word2 starts with a letter. -/
def twoWordAt (w1 w2 : List Char) (cs : List Char) : Bool :=
  decide (cs.take w1.length = w1) &&
  (let rest := cs.drop w1.length
   let k := (rest.takeWhile isPySpace).length
   decide (1 ≤ k) && decide ((rest.drop k).take w2.length = w2))

/-- re.search of one trigger pattern: try every start position, leftmost
first. -/
def searchTwoWord (w1 w2 : List Char) : List Char → Bool
  | [] => false
  | c :: rest => twoWordAt w1 w2 (c :: rest) || searchTwoWord w1 w2 rest

/-- GitHubClient.is_create_jira_comment: lowercase the comment, then test the
six two-word trigger patterns. -/
def is_create_jira_comment (comment : String) : Bool :=
  let cs := comment.data.map Char.toLower
  searchTwoWord "create".data "jira".data cs ||
  searchTwoWord "make".data "jira".data cs ||
  searchTwoWord "new".data "jira".data cs ||
  searchTwoWord "jira".data "issue".data cs ||
  searchTwoWord "create".data "issue".data cs ||
  searchTwoWord "create".data "ticket".data cs

/-- The regex character class of a colon or whitespace used between a field
name and its value. -/
def isSepChar (c : Char) : Bool := c = ':' || isPySpace c

/-- The regex character class of any character except a line break. -/
def isLineChar (c : Char) : Bool := !(c = '\n' || c = '\r')

/-- Case-insensitive literal match at the head of cs (lit given lowercase). -/
def startsWithLower (lit : List Char) (cs : List Char) : Bool :=
  decide ((cs.take lit.length).map Char.toLower = lit)

/-- Backtracking of the greedy separator run: the largest count k between 1
and the given bound such that the character at position k exists and is not a
line break (so the value group can start there). -/
def bestSplit (cs : List Char) : Nat → Option Nat
  | 0 => none
  | k + 1 =>
    match (cs.drop (k + 1)).head? with
    | some c => if isLineChar c then some (k + 1) else bestSplit cs k
    | none => bestSplit cs k

/-- Match of separator-run-plus-line-capture right after a field literal:
greedy separator run with backtracking, then the greedy rest-of-line group. -/
def sepCapture (cs : List Char) : Option (List Char) :=
  match bestSplit cs (cs.takeWhile isSepChar).length with
  | some k => some ((cs.drop k).takeWhile isLineChar)
  | none => none

/-- re.search for the summary field pattern (and any other
literal-then-rest-of-line field): leftmost position where the literal matches
case-insensitively and the separator and value groups succeed. -/
def searchLineField (lit : List Char) : List Char → Option (List Char)
  | [] => none
  | c :: rest =>
    if startsWithLower lit (c :: rest) then
      match sepCapture ((c :: rest).drop lit.length) with
      | some cap => some cap
      | none => searchLineField lit rest
    else searchLineField lit rest

/-- The labels field literal with its optional trailing s.  When the s is
present the no-s alternative always fails (the separator run would have to
start at the s), so trying the longer literal first is exact. -/
def labelsAt (cs : List Char) : Option (List Char) :=
  if startsWithLower "labels".data cs then sepCapture (cs.drop 6)
  else if startsWithLower "label".data cs then sepCapture (cs.drop 5)
  else none

/-- re.search for the labels field pattern. -/
def searchLabels : List Char → Option (List Char)
  | [] => none
  | c :: rest =>
    match labelsAt (c :: rest) with
    | some cap => some cap
    | none => searchLabels rest

/-- The issue-type alternation, case-insensitive, returning the matched
characters in their original case (the regex group keeps the input text). -/
def typeAltAt (cs : List Char) : Option (List Char) :=
  if startsWithLower "bug".data cs then some (cs.take 3)
  else if startsWithLower "task".data cs then some (cs.take 4)
  else if startsWithLower "story".data cs then some (cs.take 5)
  else if startsWithLower "epic".data cs then some (cs.take 4)
  else none

/-- Backtracking of the separator run before the issue-type alternation. -/
def typeSplit (cs : List Char) : Nat → Option (List Char)
  | 0 => none
  | k + 1 =>
    match typeAltAt (cs.drop (k + 1)) with
    | some cap => some cap
    | none => typeSplit cs k

/-- Match of separator-run-plus-type-alternation right after the type
literal. -/
def typeCapture (cs : List Char) : Option (List Char) :=
  typeSplit cs (cs.takeWhile isSepChar).length

/-- re.search for the type field pattern. -/
def searchType : List Char → Option (List Char)
  | [] => none
  | c :: rest =>
    if startsWithLower "type".data (c :: rest) then
      match typeCapture ((c :: rest).drop 4) with
      | some cap => some cap
      | none => searchType rest
    else searchType rest

/-- Python str.title on ASCII text: uppercase a letter after a non-letter,
lowercase a letter after a letter. -/
def pyTitleGo : Bool → List Char → List Char
  | _, [] => []
  | prevAlpha, c :: rest =>
    if c.isAlpha then
      (if prevAlpha then c.toLower else c.toUpper) :: pyTitleGo true rest
    else c :: pyTitleGo false rest

/-- Python str.title. -/
def pyTitle (s : String) : String := String.mk (pyTitleGo false s.data)

/-- The value object returned by GitHubClient.extract_jira_details. -/
structure JiraDetails where
  summary : String
  description : String
  issue_type : String
  labels : List String
deriving DecidableEq

/-- GitHubClient.extract_jira_details; owner and repo come from the client
configuration and only feed the PR link inside the description. -/
def extract_jira_details (owner repo : String) (comment pr_title : String)
    (pr_body : Option String) (pr_number : Option Nat) : JiraDetails :=
  let summary_match := searchLineField "summary".data comment.data
  let type_match := searchType comment.data
  let labels_match := searchLabels comment.data
  let summary :=
    match summary_match with
    | some m => pyStrip (String.mk m)
    | none => "[GitHub PR] " ++ pr_title
  let issue_type :=
    match type_match with
    | some m => pyTitle (String.mk m)
    | none => "Task"
  let labels := "github-pr" ::
    (match labels_match with
     | some m => ((splitOnChar ',' (String.mk m)).map pyStrip)
     | none => [])
  let parts1 := ["Created from GitHub Pull Request\n"]
  let parts2 := parts1 ++
    (match pr_number with
     | some n =>
       if n ≠ 0 then
         ["**Original PR:** [#" ++ toString n ++ " " ++ pr_title ++
          "](https://github.com/" ++ owner ++ "/" ++ repo ++ "/pull/" ++
          toString n ++ ")\n"]
       else []
     | none => [])
  let parts3 := parts2 ++
    (match pr_body with
     | some b => if b ≠ "" then ["**PR Description:**\n" ++ b ++ "\n"] else []
     | none => [])
  let parts4 := parts3 ++ ["**Comment that triggered creation:**\n" ++ comment]
  { summary := summary, description := String.intercalate "\n" parts4,
    issue_type := issue_type, labels := labels }

/-- GitHubPullRequest restricted to the fields the orchestrator reads. -/
structure GitHubPullRequest where
  number : Nat
  title : String
  body : Option String
deriving DecidableEq

/-- CreateJiraIssueRequest dataclass (types.py), without the optional assignee
and priority that the orchestrator never sets. -/
structure CreateJiraIssueRequest where
  summary : String
  issue_type : String
  project_key : String
  description : Option String := none
  labels : List String := []
deriving DecidableEq

/-- ProcessingResult dataclass (types.py). -/
structure ProcessingResult where
  action : String
  issue : Option JiraIssue := none
  similarity : Option ℚ := none
  reason : Option String := none
deriving DecidableEq

deriving instance DecidableEq for Except

/-- One observed call to an external collaborator, together with the outcome
the collaborator returned for it. -/
inductive ExtCall where
  | getPullRequest (number : Nat) (result : Option GitHubPullRequest)
  | syncIssues (result : Except String (List JiraIssue))
  | createIssue (request : CreateJiraIssueRequest)
      (result : Except String JiraIssue)
  | addComment (number : Nat) (body : String) (result : Except String Unit)
deriving DecidableEq

/-- The configuration the orchestrator reads plus the outcome every external
collaborator would return during one processing run. -/
structure Env where
  owner : String
  repo : String
  project_key : String
  jira_host : String
  now : Int
  getPullRequest : Nat → Option GitHubPullRequest
  fetchIssues : Except String (List JiraIssue)
  createIssue : CreateJiraIssueRequest → Except String JiraIssue
  addComment : Nat → String → Except String Unit

/-- A percentage with one decimal digit, modelling the .1f format of the
score interpolations. -/
def fmtPct1 (q : ℚ) : String :=
  let t := (q * 1000 + 1 / 2).floor
  toString (t / 10) ++ "." ++ toString (t % 10)

/-- Body of the similar-issue comment posted by the webhook orchestrator. -/
def foundSimilarComment (host : String) (r : IssueMatchResult) : String :=
  "🔍 **Found similar existing Jira issue:**\n\n[" ++ r.issue.key ++ "](" ++
  host ++ "/browse/" ++ r.issue.key ++ ") - " ++ r.issue.summary ++
  "\n\n**Similarity score:** " ++ fmtPct1 r.score ++ "%\n**Matched fields:** " ++
  String.intercalate ", " r.matched_fields ++
  "\n\nPlease check if this existing issue covers your request before creating a new one."

/-- Body of the created-issue comment posted by the webhook orchestrator. -/
def createdIssueComment (host : String) (it : JiraIssue) : String :=
  "✅ **Created Jira issue:**\n\n[" ++ it.key ++ "](" ++ host ++ "/browse/" ++
  it.key ++ ") - " ++ it.summary ++ "\n\n**Type:** " ++
  (match it.issue_type with | some t => t | none => "Unknown") ++
  "\n**Labels:** " ++
  (if it.labels = [] then "None" else String.intercalate ", " it.labels)

/-- Body of the best-effort error comment posted from the except block. -/
def errorCommentBody (e : String) : String :=
  "❌ **Error creating Jira issue:**\n\n" ++ e ++
  "\n\nPlease check the server logs or try again later."

/-- The except block of _process_pr_comment_for_jira: attempt the error
comment (its outcome is recorded in the trace but ignored), then re-raise the
original error with the state as it was at the failure point. -/
def failWithComment (env : Env) (pr_number : Nat) (e : String)
    (st : ClientState) (tr : List ExtCall) :
    Except String ProcessingResult × ClientState × List ExtCall :=
  (.error e, st,
   tr ++ [ExtCall.addComment pr_number (errorCommentBody e)
            (env.addComment pr_number (errorCommentBody e))])

/-- The tail of WebhookServer._process_pr_comment_for_jira after the sync
step: score the cache against summary-space-description, then either comment
about the best match, or create the issue and comment about it.  Failures of
the comment and create collaborators take the except path. -/
def processAfterSync (env : Env) (pr_number : Nat) (threshold : ℚ)
    (jd : JiraDetails) (st : ClientState) (tr : List ExtCall) :
    Except String ProcessingResult × ClientState × List ExtCall :=
  let search_text := jd.summary ++ " " ++ jd.description
  match find_similar_issues st.issues search_text threshold with
  | best :: _ =>
    let body := foundSimilarComment env.jira_host best
    let tr2 := tr ++ [ExtCall.addComment pr_number body
                        (env.addComment pr_number body)]
    match env.addComment pr_number body with
    | .error e => failWithComment env pr_number e st tr2
    | .ok _ =>
      (.ok { action := "found_similar", issue := some best.issue,
             similarity := some best.score }, st, tr2)
  | [] =>
    let req : CreateJiraIssueRequest :=
      { summary := jd.summary, description := some jd.description,
        issue_type := jd.issue_type, project_key := env.project_key,
        labels := jd.labels }
    let tr2 := tr ++ [ExtCall.createIssue req (env.createIssue req)]
    match create_issue (env.createIssue req) st with
    | (.error e, st1) => failWithComment env pr_number e st1 tr2
    | (.ok it, st1) =>
      let body := createdIssueComment env.jira_host it
      let tr3 := tr2 ++ [ExtCall.addComment pr_number body
                           (env.addComment pr_number body)]
      match env.addComment pr_number body with
      | .error e => failWithComment env pr_number e st1 tr3
      | .ok _ => (.ok { action := "created", issue := some it }, st1, tr3)

/-- WebhookServer._process_pr_comment_for_jira: the whole try/except body.
Returns the outcome (or the re-raised error), the final cache state, and the
external calls in order. -/
def process_pr_comment_for_jira (env : Env) (st : ClientState) (pr_number : Nat)
    (comment : String) (threshold : ℚ) :
    Except String ProcessingResult × ClientState × List ExtCall :=
  if ¬ is_create_jira_comment comment then
    (.ok { action := "skipped", reason := some "No Jira creation request found" },
     st, [])
  else
    match env.getPullRequest pr_number with
    | none =>
      failWithComment env pr_number
        ("Pull request #" ++ toString pr_number ++ " not found") st
        [ExtCall.getPullRequest pr_number none]
    | some pr =>
      let tr1 := [ExtCall.getPullRequest pr_number (some pr)]
      let jd := extract_jira_details env.owner env.repo comment pr.title pr.body
                  (some pr.number)
      if needs_sync st env.now then
        match sync_issues env.fetchIssues env.now st with
        | (.error e, st1) =>
          failWithComment env pr_number e st1
            (tr1 ++ [ExtCall.syncIssues env.fetchIssues])
        | (.ok _, st1) =>
          processAfterSync env pr_number threshold jd st1
            (tr1 ++ [ExtCall.syncIssues env.fetchIssues])
      else processAfterSync env pr_number threshold jd st tr1

/-- Reduction to a 32-bit word. -/
def w32 (n : Nat) : Nat := n % 4294967296

/-- 32-bit rotate right. -/
def rotr32 (x n : Nat) : Nat := w32 ((x >>> n) ||| (x <<< (32 - n)))

/-- The SHA-256 round constants. -/
def sha256K : List Nat :=
  [1116352408, 1899447441, 3049323471, 3921009573, 961987163,
   1508970993, 2453635748, 2870763221, 3624381080, 310598401,
   607225278, 1426881987, 1925078388, 2162078206, 2614888103,
   3248222580, 3835390401, 4022224774, 264347078, 604807628,
   770255983, 1249150122, 1555081692, 1996064986, 2554220882,
   2821834349, 2952996808, 3210313671, 3336571891, 3584528711,
   113926993, 338241895, 666307205, 773529912, 1294757372,
   1396182291, 1695183700, 1986661051, 2177026350, 2456956037,
   2730485921, 2820302411, 3259730800, 3345764771, 3516065817,
   3600352804, 4094571909, 275423344, 430227734, 506948616,
   659060556, 883997877, 958139571, 1322822218, 1537002063,
   1747873779, 1955562222, 2024104815, 2227730452, 2361852424,
   2428436474, 2756734187, 3204031479, 3329325298]

/-- The SHA-256 initial hash value. -/
def sha256H0 : List Nat :=
  [1779033703, 3144134277, 1013904242, 2773480762, 1359893119,
   2600822924, 528734635, 1541459225]

/-- Big-endian bytes of a number, fixed width. -/
def beBytes : Nat → Nat → List Nat
  | 0, _ => []
  | k + 1, n => beBytes k (n / 256) ++ [n % 256]

/-- SHA-256 message padding: a 0x80 byte, zeros to 56 mod 64, then the 64-bit
big-endian bit length. -/
def sha256Pad (msg : List Nat) : List Nat :=
  msg ++ [0x80] ++ List.replicate ((64 + 56 - (msg.length + 1) % 64) % 64) 0 ++
  beBytes 8 (8 * msg.length)

/-- Split a byte list into 64-byte blocks. -/
def chunks64 : List Nat → List (List Nat)
  | [] => []
  | b :: rest => ((b :: rest).take 64) :: chunks64 ((b :: rest).drop 64)
termination_by l => l.length
decreasing_by simp [List.length_drop]; omega

/-- Pack bytes into big-endian 32-bit words. -/
def toWords : List Nat → List Nat
  | b0 :: b1 :: b2 :: b3 :: rest =>
    (((b0 * 256 + b1) * 256 + b2) * 256 + b3) :: toWords rest
  | _ => []

/-- Extend the 16 message words of a block by one scheduled word per step. -/
def sha256Extend (w : List Nat) : Nat → List Nat
  | 0 => w
  | f + 1 =>
    let i := w.length
    let x15 := w.getD (i - 15) 0
    let x2 := w.getD (i - 2) 0
    let s0 := (rotr32 x15 7) ^^^ (rotr32 x15 18) ^^^ (x15 >>> 3)
    let s1 := (rotr32 x2 17) ^^^ (rotr32 x2 19) ^^^ (x2 >>> 10)
    sha256Extend (w ++ [w32 (w.getD (i - 16) 0 + s0 + w.getD (i - 7) 0 + s1)]) f

/-- One SHA-256 compression round on the eight-word state. -/
def sha256Round (st : List Nat) (kw : Nat × Nat) : List Nat :=
  match st with
  | [a, b, c, d, e, f, g, h] =>
    let S1 := (rotr32 e 6) ^^^ (rotr32 e 11) ^^^ (rotr32 e 25)
    let ch := (e &&& f) ^^^ ((e ^^^ 0xffffffff) &&& g)
    let temp1 := w32 (h + S1 + ch + kw.1 + kw.2)
    let S0 := (rotr32 a 2) ^^^ (rotr32 a 13) ^^^ (rotr32 a 22)
    let maj := (a &&& b) ^^^ (a &&& c) ^^^ (b &&& c)
    let temp2 := w32 (S0 + maj)
    [w32 (temp1 + temp2), a, b, c, w32 (d + temp1), e, f, g]
  | other => other

/-- Process one 64-byte block. -/
def sha256Block (h : List Nat) (block : List Nat) : List Nat :=
  let w := sha256Extend (toWords block) 48
  let st := (sha256K.zip w).foldl sha256Round h
  (h.zip st).map (fun p => w32 (p.1 + p.2))

/-- SHA-256 of a byte list, as a byte list. -/
def sha256 (msg : List Nat) : List Nat :=
  let hs := (chunks64 (sha256Pad msg)).foldl sha256Block sha256H0
  (hs.map (beBytes 4)).flatten

/-- HMAC-SHA256 over byte lists (hashlib block size 64). -/
def hmacSha256 (key msg : List Nat) : List Nat :=
  let k0 := if 64 < key.length then sha256 key else key
  let kp := k0 ++ List.replicate (64 - k0.length) 0
  sha256 ((kp.map (fun b => b ^^^ 0x5c)) ++
          sha256 ((kp.map (fun b => b ^^^ 0x36)) ++ msg))

/-- Lowercase hexadecimal digit. -/
def hexDigit (n : Nat) : Char :=
  if n < 10 then Char.ofNat (48 + n) else Char.ofNat (87 + n)

/-- Lowercase hexadecimal rendering of a byte list (hexdigest). -/
def hexDigest (bs : List Nat) : String :=
  String.mk ((bs.map (fun b => [hexDigit (b / 16), hexDigit (b % 16)])).flatten)

/-- UTF-8 bytes of a string. -/
def utf8Bytes (s : String) : List Nat := s.toUTF8.toList.map UInt8.toNat

/-- WebhookServer._verify_signature: a falsy (absent or empty) header fails at
once; otherwise the header is compared, constant-time, with sha256= followed
by the hex HMAC-SHA256 of the raw body under the shared secret. -/
def verify_signature (secret : String) (payload : List Nat)
    (signature : Option String) : Bool :=
  match signature with
  | none => false
  | some sig =>
    if sig = "" then false
    else sig == "sha256=" ++ hexDigest (hmacSha256 (utf8Bytes secret) payload)

/-- The externally visible steps of the webhook endpoint, in order. -/
inductive WebhookStep where
  | verifySignature
  | parseJson
  | scheduleBackground
deriving DecidableEq

/-- The github_webhook endpoint body: verify, parse, schedule background
processing, answer 200.  The HTTPException with status 401 raised for a bad
signature inside the try block is caught by the final catch-all except clause
and replaced by a 500 internal-server-error response; a JSON decode error
becomes 400.  Returns the HTTP status and the steps performed. -/
def github_webhook (secret : String) (body : List Nat)
    (signature : Option String) (parseResult : Except String Unit) :
    Nat × List WebhookStep :=
  if ¬ verify_signature secret body signature then
    (500, [WebhookStep.verifySignature])
  else
    match parseResult with
    | .error _ => (400, [WebhookStep.verifySignature, WebhookStep.parseJson])
    | .ok _ =>
      (200, [WebhookStep.verifySignature, WebhookStep.parseJson,
             WebhookStep.scheduleBackground])

/-- The LCS length is at most the length of the first list. -/
theorem lcsGo_le_left : ∀ (fuel : Nat) (as bs : List Char), lcsGo fuel as bs ≤ as.length := by
  intro fuel
  induction fuel with
  | zero => intro as bs; simp [lcsGo]
  | succ f ih =>
    intro as bs
    match as, bs with
    | [], _ => simp [lcsGo]
    | _ :: _, [] => simp [lcsGo]
    | a :: as, b :: bs =>
      simp only [lcsGo]
      split
      · have := ih as bs
        simp [List.length_cons]
        omega
      · have h1 := ih (a :: as) bs
        have h2 := ih as (b :: bs)
        simp [List.length_cons] at h1 h2 ⊢
        omega

/-- The LCS length is at most the length of the second list. -/
theorem lcsGo_le_right : ∀ (fuel : Nat) (as bs : List Char), lcsGo fuel as bs ≤ bs.length := by
  intro fuel
  induction fuel with
  | zero => intro as bs; simp [lcsGo]
  | succ f ih =>
    intro as bs
    match as, bs with
    | [], _ => simp [lcsGo]
    | _ :: _, [] => simp [lcsGo]
    | a :: as, b :: bs =>
      simp only [lcsGo]
      split
      · have := ih as bs
        simp [List.length_cons]
        omega
      · have h1 := ih (a :: as) bs
        have h2 := ih as (b :: bs)
        simp [List.length_cons] at h1 h2 ⊢
        omega

/-- The percentage ratio never exceeds 100. -/
theorem fuzzScore100_le_hundred (s1 s2 : String) : fuzzScore100 s1 s2 ≤ 100 := by
  unfold fuzzScore100
  split
  · exact le_refl 100
  split
  · exact Nat.zero_le 100
  · rename_i hne hlen
    have h1 := lcsGo_le_left (s1.data.length + s2.data.length) s1.data s2.data
    have h2 := lcsGo_le_right (s1.data.length + s2.data.length) s1.data s2.data
    have e1 : s1.length = s1.data.length := rfl
    have e2 : s2.length = s2.data.length := rfl
    have hpos : 0 < s1.length + s2.length := by
      simp [Bool.or_eq_true] at hlen
      omega
    rw [Nat.div_le_iff_le_mul_add_pred (by omega)]
    unfold lcsLen
    omega

/-- The token-sort percentage never exceeds 100. -/
theorem tokenSortScore100_le_hundred (s1 s2 : String) : tokenSortScore100 s1 s2 ≤ 100 :=
  fuzzScore100_le_hundred _ _

/-- A percentage divided by 100 lies in the unit interval. -/
theorem ratScore_bounds (n : Nat) (h : n ≤ 100) : 0 ≤ (n : ℚ) / 100 ∧ (n : ℚ) / 100 ≤ 1 := by
  constructor
  · positivity
  · rw [div_le_one (by norm_num)]
    exact_mod_cast h

theorem summaryScore_bounds (q : String) (i : JiraIssue) :
    0 ≤ summaryScore q i ∧ summaryScore q i ≤ 1 := by
  unfold summaryScore
  exact ratScore_bounds _ (tokenSortScore100_le_hundred _ _)

theorem descriptionScore_bounds (q : String) (i : JiraIssue) :
    0 ≤ descriptionScore q i ∧ descriptionScore q i ≤ 1 := by
  unfold descriptionScore
  cases hd : i.description with
  | none => norm_num
  | some d =>
    dsimp only
    split
    · norm_num
    · exact ratScore_bounds _ (tokenSortScore100_le_hundred _ _)

theorem labelsScore_bounds (q : String) (i : JiraIssue) :
    0 ≤ labelsScore q i ∧ labelsScore q i ≤ 1 := by
  unfold labelsScore
  split
  · norm_num
  · exact ratScore_bounds _ (tokenSortScore100_le_hundred _ _)

/-- Membership in a stable insertion. -/
theorem mem_insertSorted {α : Type} (le : α → α → Bool) (a x : α) (l : List α) :
    x ∈ insertSorted le a l ↔ x = a ∨ x ∈ l := by
  induction l with
  | nil => simp [insertSorted]
  | cons b bs ih =>
    simp only [insertSorted]
    split
    · simp [List.mem_cons]
    · simp only [List.mem_cons, ih]
      tauto

/-- Membership is preserved by the stable sort. -/
theorem mem_stableSort {α : Type} (le : α → α → Bool) (x : α) (l : List α) :
    x ∈ stableSort le l ↔ x ∈ l := by
  induction l with
  | nil => simp [stableSort]
  | cons a as ih => simp [stableSort, mem_insertSorted, ih, List.mem_cons]

/-- Stable insertion preserves sortedness for a total transitive comparison. -/
theorem pairwise_insertSorted {α : Type} (le : α → α → Bool)
    (htrans : ∀ a b c, le a b = true → le b c = true → le a c = true)
    (htotal : ∀ a b, le a b = true ∨ le b a = true)
    (a : α) (l : List α) (h : l.Pairwise (fun x y => le x y = true)) :
    (insertSorted le a l).Pairwise (fun x y => le x y = true) := by
  induction l with
  | nil => simp [insertSorted]
  | cons b bs ih =>
    rcases List.pairwise_cons.mp h with ⟨hb, hbs⟩
    simp only [insertSorted]
    split
    · rename_i hab
      refine List.pairwise_cons.mpr ⟨?_, h⟩
      intro c hc
      rcases List.mem_cons.mp hc with hceq | hc
      · rw [hceq]; exact hab
      · exact htrans a b c hab (hb c hc)
    · rename_i hab
      refine List.pairwise_cons.mpr ⟨?_, ih hbs⟩
      intro c hc
      rcases (mem_insertSorted le a c bs).mp hc with hceq | hc
      · rw [hceq]
        rcases htotal a b with h1 | h1
        · exact absurd h1 hab
        · exact h1
      · exact hb c hc

/-- The stable sort output is pairwise ordered. -/
theorem pairwise_stableSort {α : Type} (le : α → α → Bool)
    (htrans : ∀ a b c, le a b = true → le b c = true → le a c = true)
    (htotal : ∀ a b, le a b = true ∨ le b a = true)
    (l : List α) :
    (stableSort le l).Pairwise (fun x y => le x y = true) := by
  induction l with
  | nil => simp [stableSort]
  | cons a as ih => exact pairwise_insertSorted le htrans htotal a _ ih

/-- Inserting an element that satisfies p puts it in front of every other
element satisfying p, when p-elements are pairwise tied under the
comparison. -/
theorem filter_insertSorted_pos {α : Type} (le : α → α → Bool) (p : α → Bool)
    (hties : ∀ x y, p x = true → p y = true → le x y = true)
    (a : α) (l : List α) (hpa : p a = true) :
    (insertSorted le a l).filter p = a :: l.filter p := by
  induction l with
  | nil => simp [insertSorted, hpa]
  | cons b bs ih =>
    simp only [insertSorted]
    split
    · simp [List.filter_cons, hpa]
    · rename_i hab
      have hpb : p b = false := by
        cases hb : p b
        · rfl
        · exact absurd (hties a b hpa hb) hab
      simp [List.filter_cons, hpb, hpa, ih]

/-- Inserting an element that fails p does not change the p-filtered
subsequence. -/
theorem filter_insertSorted_neg {α : Type} (le : α → α → Bool) (p : α → Bool)
    (a : α) (l : List α) (hpa : p a = false) :
    (insertSorted le a l).filter p = l.filter p := by
  induction l with
  | nil => simp [insertSorted, hpa]
  | cons b bs ih =>
    simp only [insertSorted]
    split
    · simp [List.filter_cons, hpa]
    · simp [List.filter_cons, ih]

/-- Stability: sorting does not reorder elements that are pairwise tied, so
filtering them out of the sorted list gives the original subsequence. -/
theorem filter_stableSort {α : Type} (le : α → α → Bool) (p : α → Bool)
    (hties : ∀ x y, p x = true → p y = true → le x y = true)
    (l : List α) :
    (stableSort le l).filter p = l.filter p := by
  induction l with
  | nil => rfl
  | cons a as ih =>
    simp only [stableSort]
    cases hpa : p a
    · rw [filter_insertSorted_neg le p a _ hpa, ih, List.filter_cons, if_neg (by simp [hpa])]
    · rw [filter_insertSorted_pos le p hties a _ hpa, ih, List.filter_cons, if_pos (by simp [hpa])]

/-- Claim C1: the combined score equals min(1, 0.7*summary + 0.3*description +
0.2*labels); each field score is a token-sort fuzzy ratio of lowercased text
lying in [0,1]; the description score is 0 when the issue has no description
and the labels score is 0 when it has no labels; and an issue whose combined
score is below the threshold never appears in the result sequence. -/
theorem C1_scorer_combined_and_cutoff (search_text : String) (issue : JiraIssue)
    (threshold : ℚ) (issues : List JiraIssue) :
    combinedScore search_text issue =
      min 1 (7/10 * summaryScore search_text issue +
             3/10 * descriptionScore search_text issue +
             2/10 * labelsScore search_text issue)
    ∧ (0 ≤ summaryScore search_text issue ∧ summaryScore search_text issue ≤ 1)
    ∧ (0 ≤ descriptionScore search_text issue ∧ descriptionScore search_text issue ≤ 1)
    ∧ (0 ≤ labelsScore search_text issue ∧ labelsScore search_text issue ≤ 1)
    ∧ (issue.description = none → descriptionScore search_text issue = 0)
    ∧ (issue.labels = [] → labelsScore search_text issue = 0)
    ∧ (combinedScore search_text issue < threshold →
        issue ∉ (find_similar_issues issues search_text threshold).map
          IssueMatchResult.issue) := by
  refine ⟨?_, summaryScore_bounds _ _, descriptionScore_bounds _ _,
    labelsScore_bounds _ _, ?_, ?_, ?_⟩
  · unfold combinedScore
    rw [min_comm]
    congr 1
    ring
  · intro h
    simp [descriptionScore, h]
  · intro h
    simp [labelsScore, h]
  · intro hlt hmem
    rw [List.mem_map] at hmem
    obtain ⟨r, hr, hri⟩ := hmem
    unfold find_similar_issues at hr
    split at hr
    · simp at hr
    · rw [mem_stableSort, List.mem_filterMap] at hr
      obtain ⟨a, ha, hsa⟩ := hr
      unfold scoreIssue at hsa
      split at hsa
      · rename_i hge
        cases hsa
        dsimp only at hri
        subst hri
        exact absurd hge (not_le.mpr hlt)
      · cases hsa

theorem C1_witness :
    descriptionScore "a" ⟨"1", "K-1", "a", none, none, []⟩ = 0 ∧
    labelsScore "a" ⟨"1", "K-1", "a", none, none, []⟩ = 0 ∧
    (⟨"1", "K-1", "a", none, none, []⟩ : JiraIssue) ∉
      (find_similar_issues [⟨"1", "K-1", "a", none, none, []⟩] "a" 2).map
        IssueMatchResult.issue := by
  obtain ⟨h1, h2, h3, h4, h5, h6, h7⟩ :=
    C1_scorer_combined_and_cutoff "a" ⟨"1", "K-1", "a", none, none, []⟩ 2
      [⟨"1", "K-1", "a", none, none, []⟩]
  refine ⟨h5 rfl, h6 rfl, h7 ?_⟩
  unfold combinedScore
  exact lt_of_le_of_lt (min_le_right _ _) (by norm_num)

/-- Claim C4: find_similar_issues returns the empty sequence on an empty
cache, its output is sorted by score in descending order, results with equal
scores keep the relative order of their issues in the input (stable ties,
stated as a filter equation against the unsorted scoring pass), and the
method form changes no client state, so it never triggers a sync. -/
theorem C4_find_similar_sorted_stable (issues : List JiraIssue)
    (search_text : String) (threshold : ℚ) (st : ClientState) (s : ℚ) :
    find_similar_issues [] search_text threshold = []
    ∧ (find_similar_issues issues search_text threshold).Pairwise
        (fun a b => b.score ≤ a.score)
    ∧ (find_similar_issues issues search_text threshold).filter
        (fun r => decide (r.score = s))
        = (issues.filterMap (scoreIssue search_text threshold)).filter
            (fun r => decide (r.score = s))
    ∧ find_similar_issuesM st search_text threshold
        = (find_similar_issues st.issues search_text threshold, st) := by
  have htrans : ∀ a b c : IssueMatchResult,
      byScoreDesc a b = true → byScoreDesc b c = true → byScoreDesc a c = true := by
    intro a b c hab hbc
    simp only [byScoreDesc, decide_eq_true_eq] at *
    exact le_trans hbc hab
  have htotal : ∀ a b : IssueMatchResult,
      byScoreDesc a b = true ∨ byScoreDesc b a = true := by
    intro a b
    simp only [byScoreDesc, decide_eq_true_eq]
    exact le_total b.score a.score
  refine ⟨rfl, ?_, ?_, rfl⟩
  · unfold find_similar_issues
    split
    · simp
    · exact List.Pairwise.imp (by intro a b h; simpa [byScoreDesc] using h)
        (pairwise_stableSort byScoreDesc htrans htotal _)
  · unfold find_similar_issues
    split
    · rename_i h
      rw [h]
      simp
    · apply filter_stableSort
      intro x y hx hy
      simp only [decide_eq_true_eq] at hx hy
      simp [byScoreDesc, hx, hy]

/-- Concrete token-sort score of the pair ab and ac. -/
theorem abacScore100 : tokenSortScore100 (pyLower "ab") (pyLower "ac") = 50 := by decide

theorem abacSummaryScore :
    summaryScore "ab" ⟨"1", "K", "ac", some "ac", none, ["ac"]⟩ = 1/2 := by
  unfold summaryScore
  dsimp only
  rw [abacScore100]
  norm_num

theorem abacDescriptionScore :
    descriptionScore "ab" ⟨"1", "K", "ac", some "ac", none, ["ac"]⟩ = 1/2 := by
  unfold descriptionScore
  dsimp only
  rw [if_neg (by decide), abacScore100]
  norm_num

theorem abacLabelsScore :
    labelsScore "ab" ⟨"1", "K", "ac", some "ac", none, ["ac"]⟩ = 1/2 := by
  unfold labelsScore
  dsimp only
  rw [if_neg (by decide)]
  rw [show tokenSortScore100 (pyLower "ab")
        (pyLower (String.intercalate " " ["ac"])) = 50 from by decide]
  norm_num

theorem abacCombinedScore :
    combinedScore "ab" ⟨"1", "K", "ac", some "ac", none, ["ac"]⟩ = 3/5 := by
  unfold combinedScore
  rw [abacSummaryScore, abacDescriptionScore, abacLabelsScore]
  rw [min_eq_left (by norm_num)]
  norm_num

theorem abacMatchedFields :
    matchedFieldsOf "ab" (11/20) ⟨"1", "K", "ac", some "ac", none, ["ac"]⟩ = [] := by
  unfold matchedFieldsOf
  rw [abacSummaryScore, abacDescriptionScore, abacLabelsScore]
  rw [if_neg (by norm_num), if_neg (by norm_num), if_neg (by norm_num)]
  rfl

theorem abacMatchMem :
    (⟨3/5, ⟨"1", "K", "ac", some "ac", none, ["ac"]⟩, []⟩ : IssueMatchResult) ∈
      find_similar_issues [⟨"1", "K", "ac", some "ac", none, ["ac"]⟩] "ab" (11/20) := by
  have hsi : scoreIssue "ab" (11/20) ⟨"1", "K", "ac", some "ac", none, ["ac"]⟩ =
      some ⟨3/5, ⟨"1", "K", "ac", some "ac", none, ["ac"]⟩, []⟩ := by
    unfold scoreIssue
    rw [abacCombinedScore, abacMatchedFields, if_pos (by norm_num)]
  unfold find_similar_issues
  rw [if_neg (by simp)]
  simp [List.filterMap_cons, hsi, stableSort, insertSorted]

/-- Claim C5: matched_fields of every returned result is exactly the set of
field names among summary, description and labels whose individual score
reaches the same threshold as the combined cutoff; consequently some input
passes the combined cutoff with an empty matched_fields set. -/
theorem C5_matched_fields_characterization (issues : List JiraIssue)
    (search_text : String) (threshold : ℚ) (r : IssueMatchResult)
    (hr : r ∈ find_similar_issues issues search_text threshold) :
    (∀ f : String, f ∈ r.matched_fields ↔
      ((f = "summary" ∧ summaryScore search_text r.issue ≥ threshold) ∨
       (f = "description" ∧ descriptionScore search_text r.issue ≥ threshold) ∨
       (f = "labels" ∧ labelsScore search_text r.issue ≥ threshold)))
    ∧ ∃ (issues2 : List JiraIssue) (q2 : String) (t2 : ℚ) (r2 : IssueMatchResult),
        r2 ∈ find_similar_issues issues2 q2 t2 ∧ r2.matched_fields = [] := by
  constructor
  · unfold find_similar_issues at hr
    split at hr
    · simp at hr
    · rw [mem_stableSort, List.mem_filterMap] at hr
      obtain ⟨a, ha, hsa⟩ := hr
      unfold scoreIssue at hsa
      split at hsa
      · cases hsa
        intro f
        dsimp only
        unfold matchedFieldsOf
        split_ifs with h1 h2 h3 <;>
          simp only [List.mem_append, List.mem_cons, List.not_mem_nil,
            or_false, false_or] <;>
          tauto
      · cases hsa
  · exact ⟨[⟨"1", "K", "ac", some "ac", none, ["ac"]⟩], "ab", 11/20,
      ⟨3/5, ⟨"1", "K", "ac", some "ac", none, ["ac"]⟩, []⟩, abacMatchMem, rfl⟩

theorem C5_witness :
    ∃ (issues2 : List JiraIssue) (q2 : String) (t2 : ℚ) (r2 : IssueMatchResult),
      r2 ∈ find_similar_issues issues2 q2 t2 ∧ r2.matched_fields = [] :=
  (C5_matched_fields_characterization
    [⟨"1", "K", "ac", some "ac", none, ["ac"]⟩] "ab" (11/20)
    ⟨3/5, ⟨"1", "K", "ac", some "ac", none, ["ac"]⟩, []⟩ abacMatchMem).2

/-- Claim C2: when the trigger classifier rejects the comment, the
orchestrator returns the skipped outcome with reason No Jira creation request
found, the cache state is unchanged, and the external-call trace is empty:
no PR fetch, no sync, no creation, no comment. -/
theorem C2_no_trigger_skips_without_calls (env : Env) (st : ClientState)
    (pr_number : Nat) (comment : String) (threshold : ℚ)
    (h : is_create_jira_comment comment = false) :
    process_pr_comment_for_jira env st pr_number comment threshold =
      (.ok { action := "skipped", issue := none, similarity := none,
             reason := some "No Jira creation request found" }, st, []) := by
  unfold process_pr_comment_for_jira
  rw [if_pos (by simp [h])]

theorem C2_witness :
    is_create_jira_comment "hello there" = false ∧
    process_pr_comment_for_jira
      ⟨"o", "r", "P", "h", 0, fun _ => none, .ok [], fun _ => .error "x",
       fun _ _ => .ok ()⟩
      ⟨[], none⟩ 1 "hello there" (7/10) =
      (.ok { action := "skipped", issue := none, similarity := none,
             reason := some "No Jira creation request found" }, ⟨[], none⟩, []) :=
  ⟨by decide, C2_no_trigger_skips_without_calls _ _ _ _ _ (by decide)⟩

/-- Claim C3, code-bug evaluation: with the signature header absent,
verification fails and the endpoint rejects the request without a parse step,
but the response status is 500 rather than the 401 unauthorized response the
handler tries to raise, because the catch-all except clause replaces the
HTTPException. -/
theorem C3_missing_signature_gives_500_and_no_parse :
    verify_signature "secret" [123, 125] none = false
    ∧ github_webhook "secret" [123, 125] none (.ok ()) =
        (500, [WebhookStep.verifySignature])
    ∧ (500 : Nat) ≠ 401 := by
  refine ⟨rfl, rfl, by decide⟩

/-- Claim C6: the two extraction test vectors: a comment with structured
Summary, Type and Labels fields yields the trimmed explicit summary, the
title-cased type, and github-pr followed by each trimmed custom label; a
comment with no structured fields yields the [GitHub PR]-prefixed context
title, type Task, and exactly the github-pr label. -/
theorem C6_extract_details_vectors :
    (extract_jira_details "o" "r"
        "Summary: Fix login\nType: Bug\nLabels: frontend, urgent" "T"
        (some "B") (some 5)).summary = "Fix login"
    ∧ (extract_jira_details "o" "r"
        "Summary: Fix login\nType: Bug\nLabels: frontend, urgent" "T"
        (some "B") (some 5)).issue_type = "Bug"
    ∧ (extract_jira_details "o" "r"
        "Summary: Fix login\nType: Bug\nLabels: frontend, urgent" "T"
        (some "B") (some 5)).labels = ["github-pr", "frontend", "urgent"]
    ∧ (extract_jira_details "o" "r" "create jira for this" "My PR Title"
        none none).summary = "[GitHub PR] My PR Title"
    ∧ (extract_jira_details "o" "r" "create jira for this" "My PR Title"
        none none).issue_type = "Task"
    ∧ (extract_jira_details "o" "r" "create jira for this" "My PR Title"
        none none).labels = ["github-pr"] := by
  refine ⟨by decide, by decide, by decide, by decide, by decide, by decide⟩

/-- Claim C7: a successful create returns the created issue, prepends it to
the front of the cached issue list leaving every previously cached item in
place and in order, and leaves the last-sync instant untouched. -/
theorem C7_create_issue_prepends_only (st : ClientState) (it : JiraIssue) :
    (create_issue (.ok it) st).1 = .ok it
    ∧ (create_issue (.ok it) st).2.issues = it :: st.issues
    ∧ (create_issue (.ok it) st).2.last_sync = st.last_sync :=
  ⟨rfl, rfl, rfl⟩

/-- Claim C9 counterexample: in the comment (see summary: Custom) the field
name does not start a line, yet the summary field is extracted instead of the
default [GitHub PR] title, so the claimed line anchoring does not hold. -/
theorem C9_mid_line_field_is_extracted :
    (extract_jira_details "o" "r" "see summary: Custom" "T" none none).summary
      = "Custom"
    ∧ "Custom" ≠ "[GitHub PR] T" := by
  refine ⟨by decide, by decide⟩

/-- Claim C9 amended: the three field patterns are searched anywhere in the
comment (unanchored search), so occurrences of the summary, type and labels
fields in mid-line positions are treated as structured fields. -/
theorem C9_fields_matched_anywhere (pr_title : String) :
    (extract_jira_details "o" "r" "x summary: Custom\ny type: bug\nz labels: a, b"
        pr_title none none).summary = "Custom"
    ∧ (extract_jira_details "o" "r" "x summary: Custom\ny type: bug\nz labels: a, b"
        pr_title none none).issue_type = "Bug"
    ∧ (extract_jira_details "o" "r" "x summary: Custom\ny type: bug\nz labels: a, b"
        pr_title none none).labels = ["github-pr", "a", "b"] := by
  refine ⟨rfl, rfl, rfl⟩

/-- Claim C10: sync is atomic on failure: a failing fetch propagates its
error and leaves both the cached issue list and the last-sync instant exactly
as they were, while a successful fetch wholesale-replaces the list and sets
the instant to now. -/
theorem C10_sync_atomic_on_failure (fetched : Except String (List JiraIssue))
    (now : Int) (st : ClientState) :
    (∀ e, fetched = .error e → sync_issues fetched now st = (.error e, st))
    ∧ (∀ l, fetched = .ok l →
        sync_issues fetched now st = (.ok (), ⟨l, some now⟩)) := by
  constructor
  · intro e he
    rw [he]
    rfl
  · intro l hl
    rw [hl]
    rfl

theorem C10_witness :
    sync_issues (.error "boom") 42
        ⟨[⟨"1", "K", "s", none, none, []⟩], some 7⟩ =
      (.error "boom", ⟨[⟨"1", "K", "s", none, none, []⟩], some 7⟩) :=
  (C10_sync_atomic_on_failure (.error "boom") 42
    ⟨[⟨"1", "K", "s", none, none, []⟩], some 7⟩).1 "boom" rfl

/-- The except block always ends the trace with the attempted error
comment. -/
theorem failWithComment_last (env : Env) (pr_number : Nat) (e : String)
    (st : ClientState) (tr : List ExtCall) :
    (failWithComment env pr_number e st tr).2.2.getLast? =
      some (ExtCall.addComment pr_number (errorCommentBody e)
        (env.addComment pr_number (errorCommentBody e))) := by
  unfold failWithComment
  simp

/-- Every failure exit of the post-sync tail goes through the except block,
so the trace ends with the attempted error comment for the original error. -/
theorem processAfterSync_error_has_comment (env : Env) (pr_number : Nat)
    (threshold : ℚ) (jd : JiraDetails) (st : ClientState) (tr : List ExtCall)
    (e : String)
    (h : (processAfterSync env pr_number threshold jd st tr).1 = .error e) :
    (processAfterSync env pr_number threshold jd st tr).2.2.getLast? =
      some (ExtCall.addComment pr_number (errorCommentBody e)
        (env.addComment pr_number (errorCommentBody e))) := by
  unfold processAfterSync at h ⊢
  dsimp only at h ⊢
  generalize hfind : find_similar_issues st.issues
      (jd.summary ++ " " ++ jd.description) threshold = fr at h ⊢
  rcases fr with _ | ⟨best, rest⟩
  · dsimp only at h ⊢
    generalize hcre : env.createIssue
        { summary := jd.summary, description := some jd.description,
          issue_type := jd.issue_type, project_key := env.project_key,
          labels := jd.labels } = cr at h ⊢
    rcases cr with e2 | it
    · simp only [create_issue] at h ⊢
      have he : e2 = e := by
        simpa [failWithComment] using h
      rw [← he]
      exact failWithComment_last _ _ _ _ _
    · simp only [create_issue] at h ⊢
      generalize hadd : env.addComment pr_number
          (createdIssueComment env.jira_host it) = ar at h ⊢
      rcases ar with e2 | u
      · have he : e2 = e := by
          simpa [failWithComment] using h
        rw [← he]
        exact failWithComment_last _ _ _ _ _
      · simp at h
  · dsimp only at h ⊢
    generalize hadd : env.addComment pr_number
        (foundSimilarComment env.jira_host best) = ar at h ⊢
    rcases ar with e2 | u
    · have he : e2 = e := by
        simpa [failWithComment] using h
      rw [← he]
      exact failWithComment_last _ _ _ _ _
    · simp at h

/-- Claim C8: whenever webhook processing fails after the creation-request
check, the trigger check had passed, and the last external call of the run is
the best-effort error comment carrying the original error text, whose own
outcome (success or failure) is recorded but ignored while the original error
is re-raised unchanged. -/
theorem C8_failure_posts_error_comment_and_reraises (env : Env)
    (st : ClientState) (pr_number : Nat) (comment : String) (threshold : ℚ)
    (e : String)
    (h : (process_pr_comment_for_jira env st pr_number comment threshold).1
      = .error e) :
    is_create_jira_comment comment = true
    ∧ (process_pr_comment_for_jira env st pr_number comment threshold).2.2.getLast?
      = some (ExtCall.addComment pr_number (errorCommentBody e)
          (env.addComment pr_number (errorCommentBody e))) := by
  unfold process_pr_comment_for_jira at h ⊢
  rcases hic : is_create_jira_comment comment with _ | _
  · simp [hic] at h
  · refine ⟨by simp [hic], ?_⟩
    try rw [hic] at h
    try rw [hic]
    rw [if_neg (show ¬ ¬ true = true by simp)] at h
    rw [if_neg (show ¬ ¬ true = true by simp)]
    generalize hpr : env.getPullRequest pr_number = prr at h ⊢
    rcases prr with _ | pr
    · have he : ("Pull request #" ++ toString pr_number ++ " not found") = e := by
        simpa [failWithComment] using h
      rw [← he]
      exact failWithComment_last _ _ _ _ _
    · dsimp only at h ⊢
      rcases hns : needs_sync st env.now with _ | _
      · rw [if_neg (by simp [hns])] at h ⊢
        exact processAfterSync_error_has_comment _ _ _ _ _ _ _ h
      · rw [if_pos (by simp [hns])] at h ⊢
        generalize hsy : sync_issues env.fetchIssues env.now st = sy at h ⊢
        rcases sy with ⟨r, st1⟩
        rcases r with e2 | u
        · have he : e2 = e := by
            simpa [failWithComment] using h
          rw [← he]
          exact failWithComment_last _ _ _ _ _
        · exact processAfterSync_error_has_comment _ _ _ _ _ _ _ h

theorem C8_witness :
    (process_pr_comment_for_jira
      ⟨"o", "r", "P", "h", 0, fun _ => none, .ok [], fun _ => .error "x",
       fun _ _ => .ok ()⟩ ⟨[], none⟩ 1 "create jira" (7/10)).1
      = .error "Pull request #1 not found"
    ∧ (process_pr_comment_for_jira
        ⟨"o", "r", "P", "h", 0, fun _ => none, .ok [], fun _ => .error "x",
         fun _ _ => .ok ()⟩ ⟨[], none⟩ 1 "create jira" (7/10)).2.2.getLast?
      = some (ExtCall.addComment 1
          (errorCommentBody "Pull request #1 not found") (.ok ())) := by
  refine ⟨by decide, ?_⟩
  have h := C8_failure_posts_error_comment_and_reraises
    ⟨"o", "r", "P", "h", 0, fun _ => none, .ok [], fun _ => .error "x",
     fun _ _ => .ok ()⟩ ⟨[], none⟩ 1 "create jira" (7/10)
    "Pull request #1 not found" (by decide)
  exact h.2
